import Mathlib

/-!
Shallow embedding of `src/scripts/seperateGeoJson.js`.

The script reads a shapefile pair into a GeoJSON feature collection
(`_getGeoJson`, lines 15-32), classifies each feature against a list of
type definitions inside `shapeToGeojson` (lines 79-100), reprojects all
coordinates and the bounding box from Gauss-Krueger to WGS84 (lines
102-118), and writes one file per distinct designation plus one combined
file (lines 120-145).

Numeric coordinate values are abstracted as `Int`, and the external
`gauss-krueger` transform `gk.toWGS` is passed as a parameter `toWGS`:
the claims about reprojection concern only how its `longitude` and
`latitude` fields are arranged, not the geodetic formula of the external
library.
-/

/-- A JavaScript attribute value as it appears in a shapefile property
(string, number, or null); at the `Option JVal` level, `none` models an
absent property (`undefined`). -/
inductive JVal where
  | str : String → JVal
  | num : Int → JVal
  | null : JVal
deriving DecidableEq

/-- JavaScript truthiness for `JVal`: the empty string, zero and null are
falsy, everything else is truthy. -/
def truthy : JVal → Bool
  | .str s => !(s == "")
  | .num n => !(n == 0)
  | .null => false

/-- JavaScript strict equality `v === s` between an attribute value and a
string (type codes in the configuration are JSON strings). -/
def jeqStr : JVal → String → Bool
  | .str t, s => t == s
  | _, _ => false

/-- One entry of the `typesDefinitions` configuration list: a type code
and a designation label. -/
structure TypeDefinition where
  type : String
  designation : String
deriving DecidableEq

/-- A feature as returned by `shapefile.read`, before the loader cleanup:
`LAGE` and `Typ` may be absent or falsy.  `extra` stands for all other
properties, which no stage of the pipeline touches. -/
structure RawFeature where
  LAGE : Option JVal
  Typ : Option JVal
  designation : Option String
  geometry : List (Int × Int)
  extra : List (String × JVal)
deriving DecidableEq

/-- A feature after the loader cleanup: `LAGE` and `Typ` are present. -/
structure Feature where
  LAGE : JVal
  Typ : JVal
  designation : Option String
  geometry : List (Int × Int)
  extra : List (String × JVal)
deriving DecidableEq

/-- The four slots of `geojson.bbox` (lines 113-118 index it 0..3). -/
structure Bbox where
  b0 : Int
  b1 : Int
  b2 : Int
  b3 : Int
deriving DecidableEq

/-- The record returned by `gk.toWGS`. -/
structure WGSCoord where
  longitude : Int
  latitude : Int

/-- The collection returned by `shapefile.read`, before cleanup. -/
structure RawGeoJson where
  type : String
  features : List RawFeature
  bbox : Bbox
deriving DecidableEq

/-- A GeoJSON feature collection as the script manipulates it. -/
structure GeoJson where
  type : String
  features : List Feature
  bbox : Bbox
deriving DecidableEq

/-- The JavaScript idiom `x || "UNKNOWN"` used on lines 23-24. -/
def orUnknown : Option JVal → JVal
  | some v => if truthy v then v else .str "UNKNOWN"
  | none => .str "UNKNOWN"

/-- Loader cleanup, lines 22-26: `LAGE` and `Typ` are defaulted to
`"UNKNOWN"` when absent or falsy; every other field is untouched. -/
def cleanupFeature (feature : RawFeature) : Feature :=
  { LAGE := orUnknown feature.LAGE
  , Typ := orUnknown feature.Typ
  , designation := feature.designation
  , geometry := feature.geometry
  , extra := feature.extra }

/-- A diagnostic sent to the status spinner during classification:
`spinner.fail` on line 90, `spinner.warn` on line 94, `spinner.error`
on line 96 (the last carries the type and the feature's `LAGE`). -/
inductive Diag where
  | failTypeNotFound : JVal → Diag
  | warnUnknown : JVal → Diag
  | errorInvalid : JVal → JVal → Diag
deriving DecidableEq

/-- What the classification map callback (lines 81-100) leaves in the
features array: the (possibly updated) feature, or the spinner object
returned by `return spinner.fail(...)` on line 90. -/
inductive MapElem where
  | feat : Feature → MapElem
  | spinnerObj : MapElem
deriving DecidableEq

/-- Line 66: `const TYPES = typesDefinitions.map(t => t.type)`. -/
def TYPES (typesDefinitions : List TypeDefinition) : List String :=
  typesDefinitions.map (fun t => t.type)

/-- The classification map callback, lines 81-100.  `TYPES` is the closure
variable computed on line 66.  The callback returns the new array element
together with the diagnostic it emitted, if any.  (The local set `types`
filled on line 92 is never read afterwards and is omitted.) -/
def classifyFeature (TYPES : List String) (typesDefinitions : List TypeDefinition)
    (feature : Feature) : MapElem × Option Diag :=
  let type := feature.Typ
  if TYPES.length != 0 then
    if truthy type && TYPES.any (fun s => jeqStr type s) then
      match typesDefinitions.find? (fun t => jeqStr type t.type) with
      | some typeDefinition =>
          (.feat { feature with designation := some typeDefinition.designation }, none)
      | none => (.spinnerObj, some (.failTypeNotFound type))
    else if truthy type then
      (.feat feature, some (.warnUnknown type))
    else
      (.feat feature, some (.errorInvalid type feature.LAGE))
  else
    (.feat feature, none)

/-- The whole classification pass, line 81: a map of the callback over the
features array.  The map runs to completion regardless of what any single
callback invocation returns. -/
def classifyFeatures (TYPES : List String) (typesDefinitions : List TypeDefinition)
    (features : List Feature) : List (MapElem × Option Diag) :=
  features.map (classifyFeature TYPES typesDefinitions)

/-- The feature a single callback invocation produces on the pipeline
path, where `TYPES` is derived from `typesDefinitions` (line 66) and the
`spinnerObj` case is unreachable. -/
def classifiedFeature (typesDefinitions : List TypeDefinition) (f : Feature) : Feature :=
  match (classifyFeature (TYPES typesDefinitions) typesDefinitions f).1 with
  | .feat f' => f'
  | .spinnerObj => f

/-- Per-feature coordinate reprojection, lines 103-112: each coordinate
pair is replaced by `[wgs.longitude, wgs.latitude]`. -/
def reprojectFeature (toWGS : Int × Int → WGSCoord) (f : Feature) : Feature :=
  { f with geometry := f.geometry.map (fun c => ((toWGS c).longitude, (toWGS c).latitude)) }

/-- Bounding-box reprojection, lines 113-118: slot 0 receives the
latitude of `toWGS(bbox[0], bbox[1])`, slot 1 its longitude, slot 2 the
latitude of `toWGS(bbox[2], bbox[3])`, slot 3 its longitude. -/
def reprojectBbox (toWGS : Int × Int → WGSCoord) (b : Bbox) : Bbox :=
  { b0 := (toWGS (b.b0, b.b1)).latitude
  , b1 := (toWGS (b.b0, b.b1)).longitude
  , b2 := (toWGS (b.b2, b.b3)).latitude
  , b3 := (toWGS (b.b2, b.b3)).longitude }

/-- Lines 102-118 together: reproject every feature and the bbox. -/
def reprojectCollection (toWGS : Int × Int → WGSCoord) (g : GeoJson) : GeoJson :=
  { type := g.type
  , features := g.features.map (reprojectFeature toWGS)
  , bbox := reprojectBbox toWGS g.bbox }

/-- Insertion-order deduplication, modelling `[...new Set(l)]` on line 67
(a JS `Set` keeps the first occurrence of each element, in order). -/
def jsSetDedup : List String → List String
  | [] => []
  | a :: l => a :: (jsSetDedup l).filter (fun b => b != a)

/-- Line 67: the distinct designation labels, in first-occurrence order. -/
def DESIGNATIONS (typesDefinitions : List TypeDefinition) : List String :=
  jsSetDedup (typesDefinitions.map (fun t => t.designation))

/-- The filter applied on lines 123-125 to the deep-copied feature list
(deep copy via `JSON.parse(JSON.stringify(...))`, hence value
semantics). -/
def partitionFeatures (designation : String) (features : List Feature) : List Feature :=
  features.filter (fun f => f.designation == some designation)

/-- `_saveGeoJson` appends the extension to the given name (line 43). -/
def saveName (outputFileName : String) : String := outputFileName ++ ".geojson"

/-- The list of (path, content) pairs a fully successful run writes:
the per-designation loop of lines 121-137, then the combined file of
lines 140-145. -/
def outputFilesList (outputFileName : String) (g : GeoJson)
    (typesDefinitions : List TypeDefinition) : List (String × GeoJson) :=
  (DESIGNATIONS typesDefinitions).map (fun designation =>
    (saveName (outputFileName ++ "_" ++ designation),
     { type := g.type
     , features := partitionFeatures designation g.features
     , bbox := g.bbox }))
  ++ [(saveName outputFileName, g)]

/-- The reprojection pass (line 104) reads `feature.geometry.coordinates`
of every element the classification map left in the array; the spinner
object has no such field, so its presence would raise a TypeError and
reject the run before any file is written. -/
def extractFeats : List MapElem → Option (List Feature)
  | [] => some []
  | .feat f :: rest => (extractFeats rest).map (fun fs => f :: fs)
  | .spinnerObj :: _ => none

/-- The collection held in `geojson` after the three in-place passes
(cleanup, classify, reproject) on the pipeline path. -/
def pipelineCollection (toWGS : Int × Int → WGSCoord)
    (typesDefinitions : List TypeDefinition) (raw : RawGeoJson) : GeoJson :=
  { type := raw.type
  , features := ((raw.features.map cleanupFeature).map
      (classifiedFeature typesDefinitions)).map (reprojectFeature toWGS)
  , bbox := reprojectBbox toWGS raw.bbox }

/-- `shapeToGeojson` (lines 55-146) from a successfully parsed collection
up to the list of files it would write: cleanup, classification,
reprojection, then the output list.  A spinner object left in the array
by line 90 would crash the reprojection pass, modelled as `.error`. -/
def shapeToGeojsonFiles (toWGS : Int × Int → WGSCoord) (outputFileName : String)
    (typesDefinitions : List TypeDefinition) (raw : RawGeoJson) :
    Except String (List (String × GeoJson)) :=
  let features1 := raw.features.map cleanupFeature
  let elems := (classifyFeatures (TYPES typesDefinitions) typesDefinitions features1).map
    (fun e => e.1)
  match extractFeats elems with
  | none => .error "TypeError: spinner result has no geometry"
  | some features2 =>
      let features3 := features2.map (reprojectFeature toWGS)
      let g : GeoJson :=
        { type := raw.type, features := features3, bbox := reprojectBbox toWGS raw.bbox }
      .ok (outputFilesList outputFileName g typesDefinitions)

/-- How the write phase of a run ends: `spinner.succeed` on line 142,
`spinner.fail` with a message naming the path on line 144, or the
uncaught `ReferenceError` raised in the catch block on line 135. -/
inductive RunEnd where
  | success : String → RunEnd
  | failMsg : String → RunEnd
  | referenceError : RunEnd
deriving DecidableEq

/-- The per-designation write loop, lines 121-137, over a file system
modelled by `canWrite`.  On a write failure the catch block (line 135)
evaluates a template string referencing `outputFile`, a `const` declared
inside the `try` block (line 127) and therefore out of scope in the
catch: a `ReferenceError` is raised instead of the intended report, and
the loop (and the rest of the run) is abandoned. -/
def writeLoop (canWrite : String → Bool) (outputFileName : String) (g : GeoJson) :
    List String → List (String × GeoJson) → List (String × GeoJson) × Option RunEnd
  | [], written => (written, none)
  | designation :: rest, written =>
    let outputFile := outputFileName ++ "_" ++ designation
    let content : GeoJson :=
      { type := g.type, features := partitionFeatures designation g.features, bbox := g.bbox }
    if canWrite (saveName outputFile) then
      writeLoop canWrite outputFileName g rest (written ++ [(saveName outputFile, content)])
    else
      (written, some .referenceError)

/-- The complete write phase, lines 121-145: the per-designation loop,
then the combined file; the loop's failure aborts the combined write, and
a combined-write failure is reported with the failing path (line 144,
where `outputFileName` is in scope). -/
def writeAll (canWrite : String → Bool) (outputFileName : String) (g : GeoJson)
    (typesDefinitions : List TypeDefinition) : List (String × GeoJson) × RunEnd :=
  match writeLoop canWrite outputFileName g (DESIGNATIONS typesDefinitions) [] with
  | (written, some e) => (written, e)
  | (written, none) =>
    if canWrite (saveName outputFileName) then
      (written ++ [(saveName outputFileName, g)], .success outputFileName)
    else
      (written, .failMsg outputFileName)

/-- A sample transform that keeps longitude and latitude distinguishable:
longitude copies the easting, latitude is the northing plus 1000. -/
def toWGS0 : Int × Int → WGSCoord := fun c => { longitude := c.1, latitude := c.2 + 1000 }

/-- Sample definition: code "A" designated "X". -/
def defAX : TypeDefinition := { type := "A", designation := "X" }

/-- Sample definition: code "B" designated "Y". -/
def defBY : TypeDefinition := { type := "B", designation := "Y" }

/-- Sample feature with type code "A". -/
def featA : Feature :=
  { LAGE := .str "LA", Typ := .str "A", designation := none, geometry := [], extra := [] }

/-- Sample feature with type code "B". -/
def featB : Feature :=
  { LAGE := .str "LB", Typ := .str "B", designation := none, geometry := [], extra := [] }

/-- Sample raw feature whose `Typ` attribute is absent. -/
def rawNoTyp : RawFeature :=
  { LAGE := some (.str "Somewhere"), Typ := none, designation := none
  , geometry := [], extra := [] }

/-- Sample raw feature with type code "A". -/
def rawA : RawFeature :=
  { LAGE := some (.str "L1"), Typ := some (.str "A"), designation := none
  , geometry := [(1, 2)], extra := [] }

/-- Sample raw collection with the single feature `rawA`. -/
def rawColl : RawGeoJson :=
  { type := "FeatureCollection", features := [rawA]
  , bbox := { b0 := 1, b1 := 2, b2 := 3, b3 := 4 } }

/-- Sample raw feature whose `LAGE` is the falsy number zero. -/
def rawZero : RawFeature :=
  { LAGE := some (.num 0), Typ := some (.str "t"), designation := none
  , geometry := [], extra := [] }

/-- Sample classified feature: designation "X". -/
def featAX : Feature :=
  { LAGE := .str "LA", Typ := .str "A", designation := some "X"
  , geometry := [], extra := [] }

/-- Sample classified feature: designation "Y". -/
def featBYd : Feature :=
  { LAGE := .str "LB", Typ := .str "B", designation := some "Y"
  , geometry := [], extra := [] }

/-- Sample classified collection for the write-phase theorems. -/
def sampleColl : GeoJson :=
  { type := "FeatureCollection", features := [featAX, featBYd]
  , bbox := { b0 := 1, b1 := 2, b2 := 3, b3 := 4 } }

/-- A file system on which only the write of "out_Y.geojson" fails. -/
def canWriteNotY : String → Bool := fun p => !(p == "out_Y.geojson")

theorem truthy_orUnknown (o : Option JVal) : truthy (orUnknown o) = true := by
  cases o with
  | none => rfl
  | some v =>
    simp only [orUnknown]
    cases hv : truthy v with
    | true => simp [hv]
    | false => simp [hv]; rfl

theorem find?_isSome_of_anyTypes (typesDefinitions : List TypeDefinition) (v : JVal)
    (h : (TYPES typesDefinitions).any (fun s => jeqStr v s) = true) :
    (typesDefinitions.find? (fun t => jeqStr v t.type)).isSome = true := by
  rw [List.any_eq_true] at h
  obtain ⟨s, hs, hjs⟩ := h
  rw [TYPES, List.mem_map] at hs
  obtain ⟨t, ht, rfl⟩ := hs
  rw [List.find?_isSome]
  exact ⟨t, ht, hjs⟩

theorem classifyFeature_fst_ne_spinner (typesDefinitions : List TypeDefinition)
    (f : Feature) :
    (classifyFeature (TYPES typesDefinitions) typesDefinitions f).1 ≠ .spinnerObj := by
  simp only [classifyFeature]
  split
  · split
    · next hguard =>
      cases hf : typesDefinitions.find? (fun t => jeqStr f.Typ t.type) with
      | some d => simp
      | none =>
        rw [Bool.and_eq_true] at hguard
        have h2 := find?_isSome_of_anyTypes typesDefinitions f.Typ hguard.2
        rw [hf] at h2
        simp at h2
    · split <;> simp
  · simp

theorem classifyFeature_snd_ne_fail (typesDefinitions : List TypeDefinition)
    (f : Feature) (t : JVal) :
    (classifyFeature (TYPES typesDefinitions) typesDefinitions f).2 ≠
      some (.failTypeNotFound t) := by
  simp only [classifyFeature]
  split
  · split
    · next hguard =>
      cases hf : typesDefinitions.find? (fun u => jeqStr f.Typ u.type) with
      | some d => simp
      | none =>
        rw [Bool.and_eq_true] at hguard
        have h2 := find?_isSome_of_anyTypes typesDefinitions f.Typ hguard.2
        rw [hf] at h2
        simp at h2
    · split <;> simp
  · simp

theorem classifyFeature_fst_eq_feat (typesDefinitions : List TypeDefinition) (f : Feature) :
    (classifyFeature (TYPES typesDefinitions) typesDefinitions f).1 =
      .feat (classifiedFeature typesDefinitions f) := by
  unfold classifiedFeature
  cases h : (classifyFeature (TYPES typesDefinitions) typesDefinitions f).1 with
  | feat f' => rfl
  | spinnerObj => exact absurd h (classifyFeature_fst_ne_spinner typesDefinitions f)

theorem classifiedFeature_designation (typesDefinitions : List TypeDefinition)
    (f : Feature) :
    (classifiedFeature typesDefinitions f).designation = f.designation ∨
      ∃ d ∈ typesDefinitions,
        (classifiedFeature typesDefinitions f).designation = some d.designation := by
  unfold classifiedFeature
  cases h : (classifyFeature (TYPES typesDefinitions) typesDefinitions f).1 with
  | spinnerObj => left; rfl
  | feat f' =>
    revert h
    simp only [classifyFeature]
    split
    · split
      · cases hf : typesDefinitions.find? (fun t => jeqStr f.Typ t.type) with
        | some d =>
          intro h
          right
          refine ⟨d, List.mem_of_find?_eq_some hf, ?_⟩
          cases h
          rfl
        | none => intro h; cases h
      · split
        · intro h; cases h; left; rfl
        · intro h; cases h; left; rfl
    · intro h; cases h; left; rfl

theorem reprojectFeature_designation (toWGS : Int × Int → WGSCoord) (f : Feature) :
    (reprojectFeature toWGS f).designation = f.designation := rfl

theorem extractFeats_classify (typesDefinitions : List TypeDefinition) :
    ∀ fs : List Feature,
      extractFeats ((classifyFeatures (TYPES typesDefinitions) typesDefinitions fs).map
        (fun e => e.1)) = some (fs.map (classifiedFeature typesDefinitions))
  | [] => rfl
  | f :: fs => by
    have ih := extractFeats_classify typesDefinitions fs
    simp only [classifyFeatures, List.map_cons] at ih ⊢
    rw [classifyFeature_fst_eq_feat typesDefinitions f]
    simp only [extractFeats]
    rw [ih]
    rfl

theorem shapeToGeojsonFiles_eq (toWGS : Int × Int → WGSCoord) (outputFileName : String)
    (typesDefinitions : List TypeDefinition) (raw : RawGeoJson) :
    shapeToGeojsonFiles toWGS outputFileName typesDefinitions raw =
      .ok (outputFilesList outputFileName
            (pipelineCollection toWGS typesDefinitions raw) typesDefinitions) := by
  simp only [shapeToGeojsonFiles]
  rw [extractFeats_classify]
  rfl

theorem mem_jsSetDedup : ∀ (l : List String) (s : String), s ∈ jsSetDedup l ↔ s ∈ l
  | [], _ => Iff.rfl
  | a :: l, s => by
    simp only [jsSetDedup, List.mem_cons, List.mem_filter, bne_iff_ne]
    rw [mem_jsSetDedup l s]
    constructor
    · rintro (rfl | ⟨hm, _⟩)
      · exact Or.inl rfl
      · exact Or.inr hm
    · rintro (rfl | hm)
      · exact Or.inl rfl
      · by_cases hsa : s = a
        · exact Or.inl hsa
        · exact Or.inr ⟨hm, hsa⟩

theorem nodup_jsSetDedup : ∀ l : List String, (jsSetDedup l).Nodup
  | [] => List.nodup_nil
  | a :: l => by
    simp only [jsSetDedup]
    rw [List.nodup_cons]
    constructor
    · intro hmem
      rw [List.mem_filter] at hmem
      simp at hmem
    · exact (nodup_jsSetDedup l).filter _

/-- C5: after the loader cleanup, a feature's `LAGE` (resp. `Typ`) equals
"UNKNOWN" whenever the raw property was absent or falsy (empty string,
null, zero), a present truthy value is kept unchanged, and every other
field of the feature is untouched. -/
theorem C5_cleanup_defaults (raw : RawFeature) :
    ((raw.LAGE = none ∨ ∃ v, raw.LAGE = some v ∧ truthy v = false) →
        (cleanupFeature raw).LAGE = .str "UNKNOWN") ∧
    (∀ v, raw.LAGE = some v → truthy v = true → (cleanupFeature raw).LAGE = v) ∧
    ((raw.Typ = none ∨ ∃ v, raw.Typ = some v ∧ truthy v = false) →
        (cleanupFeature raw).Typ = .str "UNKNOWN") ∧
    (∀ v, raw.Typ = some v → truthy v = true → (cleanupFeature raw).Typ = v) ∧
    (cleanupFeature raw).designation = raw.designation ∧
    (cleanupFeature raw).geometry = raw.geometry ∧
    (cleanupFeature raw).extra = raw.extra := by
  refine ⟨?_, ?_, ?_, ?_, rfl, rfl, rfl⟩
  · rintro (h | ⟨v, hv, htr⟩) <;> simp [cleanupFeature, orUnknown, *]
  · intro v hv htr; simp [cleanupFeature, orUnknown, hv, htr]
  · rintro (h | ⟨v, hv, htr⟩) <;> simp [cleanupFeature, orUnknown, *]
  · intro v hv htr; simp [cleanupFeature, orUnknown, hv, htr]

/-- Witness for C5 at a concrete feature whose `LAGE` is the falsy
number zero. -/
theorem C5_witness : (cleanupFeature rawZero).LAGE = .str "UNKNOWN" :=
  (C5_cleanup_defaults rawZero).1 (Or.inr ⟨.num 0, rfl, rfl⟩)

/-- C7: with an empty (or defaulted-to-empty) definitions list the
classification callback returns every feature unchanged with no
diagnostic, and the run writes only the combined file, holding the
cleaned-up, reprojected collection. -/
theorem C7_empty_definitions (toWGS : Int × Int → WGSCoord) (outputFileName : String)
    (raw : RawGeoJson) :
    (∀ f : Feature, classifyFeature (TYPES []) [] f = (.feat f, none)) ∧
    shapeToGeojsonFiles toWGS outputFileName [] raw =
      .ok [(saveName outputFileName,
            { type := raw.type
            , features := (raw.features.map cleanupFeature).map (reprojectFeature toWGS)
            , bbox := reprojectBbox toWGS raw.bbox })] := by
  constructor
  · intro f; rfl
  · rw [shapeToGeojsonFiles_eq]
    have hid : ∀ f, classifiedFeature [] f = f := fun f => rfl
    simp [outputFilesList, DESIGNATIONS, jsSetDedup, pipelineCollection, hid]

/-- C1 counterexample: with a transform whose longitude and latitude
outputs differ, the reprojected bounding box holds each corner's latitude
first, not its longitude as the claim states. -/
theorem C1_counterexample :
    reprojectBbox toWGS0 { b0 := 1, b1 := 2, b2 := 3, b3 := 4 } =
      { b0 := 1002, b1 := 1, b2 := 1004, b3 := 3 } ∧
    reprojectBbox toWGS0 { b0 := 1, b1 := 2, b2 := 3, b3 := 4 } ≠
      { b0 := (toWGS0 (1, 2)).longitude, b1 := (toWGS0 (1, 2)).latitude
      , b2 := (toWGS0 (3, 4)).longitude, b3 := (toWGS0 (3, 4)).latitude } := by
  exact ⟨rfl, by decide⟩

/-- C1 amended: every feature coordinate pair becomes
`[longitude, latitude]`, but the bounding box becomes
`[latitude1, longitude1, latitude2, longitude2]` (each corner latitude
first); the collection's type tag is unchanged. -/
theorem C1_reprojection_order (toWGS : Int × Int → WGSCoord) (g : GeoJson) :
    (reprojectCollection toWGS g).features =
      g.features.map (fun f =>
        { f with geometry :=
            f.geometry.map (fun c => ((toWGS c).longitude, (toWGS c).latitude)) }) ∧
    (reprojectCollection toWGS g).bbox =
      { b0 := (toWGS (g.bbox.b0, g.bbox.b1)).latitude
      , b1 := (toWGS (g.bbox.b0, g.bbox.b1)).longitude
      , b2 := (toWGS (g.bbox.b2, g.bbox.b3)).latitude
      , b3 := (toWGS (g.bbox.b2, g.bbox.b3)).longitude } ∧
    (reprojectCollection toWGS g).type = g.type :=
  ⟨rfl, rfl, rfl⟩

/-- C2 counterexample: with an allowed-type list containing "A" but a
definitions list without it, the callback takes the definition-not-found
branch on the first feature (recording the spinner-fail result) and the
map nevertheless continues: the second feature is still classified. -/
theorem C2_counterexample :
    classifyFeatures ["A", "B"] [defBY] [featA, featB] =
      [(.spinnerObj, some (.failTypeNotFound (.str "A"))),
       (.feat { featB with designation := some "Y" }, none)] := rfl

/-- C2 amended: the definition-not-found branch does not abort the run;
the classification pass is a pointwise map, so each feature's outcome is
independent of any earlier feature's spinner-fail result. -/
theorem C2_map_is_pointwise (TYPES : List String)
    (typesDefinitions : List TypeDefinition) (fs gs : List Feature) (i : Nat) :
    classifyFeatures TYPES typesDefinitions (fs ++ gs) =
      classifyFeatures TYPES typesDefinitions fs ++
        classifyFeatures TYPES typesDefinitions gs ∧
    (classifyFeatures TYPES typesDefinitions fs)[i]? =
      fs[i]?.map (classifyFeature TYPES typesDefinitions) := by
  constructor
  · simp [classifyFeatures]
  · simp [classifyFeatures, List.getElem?_map]

/-- C3 counterexample: a feature whose raw `Typ` is absent gets `Typ`
"UNKNOWN" from the loader, and with a non-empty definitions list the
classifier then emits the warning-level unknown-type diagnostic, never
the error-level diagnostic that references `LAGE`. -/
theorem C3_counterexample :
    (classifyFeature (TYPES [defAX]) [defAX] (cleanupFeature rawNoTyp)).2 =
      some (.warnUnknown (.str "UNKNOWN")) ∧
    ∀ t l, (classifyFeature (TYPES [defAX]) [defAX] (cleanupFeature rawNoTyp)).2 ≠
      some (.errorInvalid t l) := by
  refine ⟨rfl, ?_⟩
  intro t l h
  have h1 : (classifyFeature (TYPES [defAX]) [defAX] (cleanupFeature rawNoTyp)).2 =
      some (.warnUnknown (.str "UNKNOWN")) := rfl
  rw [h1] at h
  simp at h

/-- C3 amended: a feature whose `Typ` attribute was unset or falsy is
defaulted to "UNKNOWN" by the loader; provided "UNKNOWN" is not itself a
configured type code, the classifier then emits the non-fatal
warning-level unknown-type diagnostic (which does not mention `LAGE`) and
passes the feature through unchanged.  The error-level `LAGE`-referencing
diagnostic fires only for a falsy `Typ`, which cannot occur after the
loader. -/
theorem C3_default_typ_warns (typesDefinitions : List TypeDefinition) (raw : RawFeature)
    (h1 : raw.Typ = none ∨ ∃ v, raw.Typ = some v ∧ truthy v = false)
    (h2 : "UNKNOWN" ∉ TYPES typesDefinitions)
    (h3 : typesDefinitions ≠ []) :
    (cleanupFeature raw).Typ = .str "UNKNOWN" ∧
    classifyFeature (TYPES typesDefinitions) typesDefinitions (cleanupFeature raw) =
      (.feat (cleanupFeature raw), some (.warnUnknown (.str "UNKNOWN"))) := by
  have hTyp : (cleanupFeature raw).Typ = .str "UNKNOWN" := by
    rcases h1 with h | ⟨v, hv, htr⟩
    · simp [cleanupFeature, orUnknown, h]
    · simp [cleanupFeature, orUnknown, hv, htr]
  refine ⟨hTyp, ?_⟩
  have hany : (TYPES typesDefinitions).any
      (fun s => jeqStr (.str "UNKNOWN") s) = false := by
    rw [List.any_eq_false]
    intro s hs
    simp only [jeqStr, Bool.not_eq_true, beq_eq_false_iff_ne]
    intro heq
    exact h2 (heq ▸ hs)
  have hlen : ((TYPES typesDefinitions).length != 0) = true := by
    simp only [TYPES, List.length_map, bne_iff_ne]
    intro hzero
    exact h3 (List.length_eq_zero.mp hzero)
  have htr : truthy (JVal.str "UNKNOWN") = true := rfl
  simp [classifyFeature, hTyp, hany, hlen, htr]

/-- Witness for C3's amended statement at a concrete feature with an
absent `Typ` attribute. -/
theorem C3_witness :
    (cleanupFeature rawNoTyp).Typ = .str "UNKNOWN" ∧
    classifyFeature (TYPES [defAX]) [defAX] (cleanupFeature rawNoTyp) =
      (.feat (cleanupFeature rawNoTyp), some (.warnUnknown (.str "UNKNOWN"))) :=
  C3_default_typ_warns [defAX] rawNoTyp (Or.inl rfl) (by decide) (by decide)

/-- C10: the definition-not-found branch is unreachable.  `TYPES` is the
image of the definitions list under the type projection, so whenever a
feature's `Typ` passes the `TYPES.includes` test the definition lookup
succeeds, and the classifier never produces the spinner-fail result nor
the fatal diagnostic. -/
theorem C10_lookup_always_succeeds (typesDefinitions : List TypeDefinition)
    (f : Feature) :
    ((TYPES typesDefinitions).any (fun s => jeqStr f.Typ s) = true →
      (typesDefinitions.find? (fun t => jeqStr f.Typ t.type)).isSome = true) ∧
    (classifyFeature (TYPES typesDefinitions) typesDefinitions f).1 ≠ .spinnerObj ∧
    ∀ t, (classifyFeature (TYPES typesDefinitions) typesDefinitions f).2 ≠
      some (.failTypeNotFound t) :=
  ⟨find?_isSome_of_anyTypes typesDefinitions f.Typ,
   classifyFeature_fst_ne_spinner typesDefinitions f,
   classifyFeature_snd_ne_fail typesDefinitions f⟩

/-- Witness for C10 at a concrete definitions list and feature. -/
theorem C10_witness :
    ([defAX].find? (fun t => jeqStr featA.Typ t.type)).isSome = true :=
  (C10_lookup_always_succeeds [defAX] featA).1 (by decide)

/-- C4: after loading, a feature carries no designation; if its `Typ`
matches a configured type code, classification attaches the designation
of the (first) matching definition, and if it matches no configured code
the designation stays absent. -/
theorem C4_designation_matches (typesDefinitions : List TypeDefinition)
    (raw : RawFeature) (hne : typesDefinitions ≠ []) (hdes : raw.designation = none) :
    (∀ d, typesDefinitions.find?
        (fun t => jeqStr (cleanupFeature raw).Typ t.type) = some d →
      (classifyFeature (TYPES typesDefinitions) typesDefinitions
          (cleanupFeature raw)).1 =
        .feat { cleanupFeature raw with designation := some d.designation }) ∧
    (typesDefinitions.find? (fun t => jeqStr (cleanupFeature raw).Typ t.type) = none →
      ∃ f', (classifyFeature (TYPES typesDefinitions) typesDefinitions
          (cleanupFeature raw)).1 = .feat f' ∧ f'.designation = none) := by
  have htr : truthy (cleanupFeature raw).Typ = true := truthy_orUnknown raw.Typ
  have hlen : ((TYPES typesDefinitions).length != 0) = true := by
    simp only [TYPES, List.length_map, bne_iff_ne]
    intro hzero
    exact hne (List.length_eq_zero.mp hzero)
  constructor
  · intro d hfind
    have hmem : d ∈ typesDefinitions := List.mem_of_find?_eq_some hfind
    have hpd := List.find?_some hfind
    have hany : (TYPES typesDefinitions).any
        (fun s => jeqStr (cleanupFeature raw).Typ s) = true := by
      rw [List.any_eq_true]
      exact ⟨d.type, List.mem_map_of_mem _ hmem, hpd⟩
    simp [classifyFeature, hlen, htr, hany, hfind]
  · intro hfind
    have hany : (TYPES typesDefinitions).any
        (fun s => jeqStr (cleanupFeature raw).Typ s) = false := by
      cases hany : (TYPES typesDefinitions).any
          (fun s => jeqStr (cleanupFeature raw).Typ s) with
      | false => rfl
      | true =>
        have h2 := find?_isSome_of_anyTypes typesDefinitions (cleanupFeature raw).Typ hany
        rw [hfind] at h2
        simp at h2
    refine ⟨cleanupFeature raw, ?_, hdes⟩
    simp [classifyFeature, hlen, htr, hany]

/-- Witness for C4: a feature with type code "A" receives designation
"X" from the matching definition. -/
theorem C4_witness :
    (classifyFeature (TYPES [defAX]) [defAX] (cleanupFeature rawA)).1 =
      .feat { cleanupFeature rawA with designation := some defAX.designation } :=
  (C4_designation_matches [defAX] rawA (by decide) rfl).1 defAX (by decide)

theorem writeLoop_all_ok (canWrite : String → Bool) (outputFileName : String)
    (g : GeoJson) (h : ∀ p, canWrite p = true) :
    ∀ (ds : List String) (written : List (String × GeoJson)),
      writeLoop canWrite outputFileName g ds written =
        (written ++ ds.map (fun designation =>
          (saveName (outputFileName ++ "_" ++ designation),
           { type := g.type, features := partitionFeatures designation g.features
           , bbox := g.bbox })), none)
  | [], written => by simp [writeLoop]
  | d :: ds, written => by
    simp only [writeLoop, h, if_true, List.map_cons]
    rw [writeLoop_all_ok canWrite outputFileName g h ds]
    simp

/-- C8: when every write succeeds, the run writes exactly N+1 files
where N is the number of distinct designation labels: one per distinct
designation, named by appending an underscore, the designation and the
extension to the output name, holding the filtered collection with the
same type tag and bounding box, followed by the combined file holding
the whole collection; the designation list is duplicate-free and covers
exactly the configured labels. -/
theorem C8_success_writes (canWrite : String → Bool) (outputFileName : String)
    (g : GeoJson) (typesDefinitions : List TypeDefinition)
    (h : ∀ p, canWrite p = true) :
    (writeAll canWrite outputFileName g typesDefinitions).2 = .success outputFileName ∧
    (writeAll canWrite outputFileName g typesDefinitions).1 =
      (DESIGNATIONS typesDefinitions).map (fun designation =>
        (saveName (outputFileName ++ "_" ++ designation),
         { type := g.type, features := partitionFeatures designation g.features
         , bbox := g.bbox })) ++ [(saveName outputFileName, g)] ∧
    (writeAll canWrite outputFileName g typesDefinitions).1.length =
      (DESIGNATIONS typesDefinitions).length + 1 ∧
    (DESIGNATIONS typesDefinitions).Nodup ∧
    (∀ s, s ∈ DESIGNATIONS typesDefinitions ↔
      s ∈ typesDefinitions.map (fun t => t.designation)) := by
  have hall : writeAll canWrite outputFileName g typesDefinitions =
      ((DESIGNATIONS typesDefinitions).map (fun designation =>
        (saveName (outputFileName ++ "_" ++ designation),
         { type := g.type, features := partitionFeatures designation g.features
         , bbox := g.bbox })) ++ [(saveName outputFileName, g)],
       .success outputFileName) := by
    unfold writeAll
    rw [writeLoop_all_ok canWrite outputFileName g h (DESIGNATIONS typesDefinitions) []]
    simp [h]
  refine ⟨by rw [hall], by rw [hall], ?_, nodup_jsSetDedup _, fun s => mem_jsSetDedup _ s⟩
  rw [hall]
  simp

/-- Witness for C8 with an always-succeeding file system. -/
theorem C8_witness :
    (writeAll (fun _ => true) "out" sampleColl [defAX, defBY]).2 = .success "out" :=
  (C8_success_writes (fun _ => true) "out" sampleColl [defAX, defBY] (fun _ => rfl)).1

/-- C9: on the run where writing the second per-designation file fails,
the first file is kept as written, every remaining write (including the
combined file) is aborted, and the run ends with the ReferenceError
raised by the catch block of the loop, which therefore does not report
the failing path (unlike the combined-file catch, which would). -/
theorem C9_write_failure_reference_error :
    writeAll canWriteNotY "out" sampleColl [defAX, defBY] =
      ([("out_X.geojson",
         { type := "FeatureCollection", features := [featAX]
         , bbox := { b0 := 1, b1 := 2, b2 := 3, b3 := 4 } })],
       .referenceError) ∧
    ∀ p, (writeAll canWriteNotY "out" sampleColl [defAX, defBY]).2 ≠
      RunEnd.failMsg p := by
  refine ⟨rfl, ?_⟩
  intro p h
  have h1 : (writeAll canWriteNotY "out" sampleColl [defAX, defBY]).2 =
      .referenceError := rfl
  rw [h1] at h
  exact RunEnd.noConfusion h

/-- C6: for a run whose raw features carry no designation property, with
the classifier the only stage that sets one, the combined (last) output
file holds the full collection; a feature lies in some per-designation
file exactly when it lies in the combined file with a designation set;
and no feature lies in the files of two different designations. -/
theorem C6_partition_completeness (toWGS : Int × Int → WGSCoord)
    (outputFileName : String) (typesDefinitions : List TypeDefinition)
    (raw : RawGeoJson) (files : List (String × GeoJson))
    (hdes : ∀ r ∈ raw.features, r.designation = none)
    (hrun : shapeToGeojsonFiles toWGS outputFileName typesDefinitions raw = .ok files) :
    ∃ g : GeoJson,
      files = outputFilesList outputFileName g typesDefinitions ∧
      files.getLast? = some (saveName outputFileName, g) ∧
      (∀ f : Feature,
        (∃ d ∈ DESIGNATIONS typesDefinitions, f ∈ partitionFeatures d g.features) ↔
          f ∈ g.features ∧ f.designation ≠ none) ∧
      (∀ d1 d2 : String, d1 ≠ d2 → ∀ f : Feature,
        f ∈ partitionFeatures d1 g.features → f ∉ partitionFeatures d2 g.features) := by
  rw [shapeToGeojsonFiles_eq] at hrun
  injection hrun with hfiles
  subst hfiles
  refine ⟨pipelineCollection toWGS typesDefinitions raw, rfl, ?_, ?_, ?_⟩
  · simp only [outputFilesList]
    exact List.getLast?_concat _
  · have hg : ∀ f ∈ (pipelineCollection toWGS typesDefinitions raw).features,
        f.designation = none ∨
          ∃ d ∈ typesDefinitions, f.designation = some d.designation := by
      intro f hf
      simp only [pipelineCollection, List.mem_map] at hf
      obtain ⟨f2, ⟨f1, ⟨r, hr, rfl⟩, rfl⟩, rfl⟩ := hf
      rw [reprojectFeature_designation]
      rcases classifiedFeature_designation typesDefinitions (cleanupFeature r) with
        h | ⟨d, hd, h⟩
      · left
        rw [h]
        show (cleanupFeature r).designation = none
        exact hdes r hr
      · right
        exact ⟨d, hd, h⟩
    intro f
    constructor
    · rintro ⟨d, _, hf⟩
      simp only [partitionFeatures, List.mem_filter, beq_iff_eq] at hf
      exact ⟨hf.1, by rw [hf.2]; simp⟩
    · rintro ⟨hf, hne⟩
      rcases hg f hf with h | ⟨d, hd, h⟩
      · exact absurd h hne
      · refine ⟨d.designation, ?_, ?_⟩
        · rw [DESIGNATIONS, mem_jsSetDedup]
          exact List.mem_map_of_mem _ hd
        · simp only [partitionFeatures, List.mem_filter, beq_iff_eq]
          exact ⟨hf, h⟩
  · intro d1 d2 hne f h1 h2
    simp only [partitionFeatures, List.mem_filter, beq_iff_eq] at h1 h2
    exact hne (Option.some.inj (h1.2.symm.trans h2.2))

/-- Witness for C6 on a concrete one-feature run. -/
theorem C6_witness :
    ∃ g : GeoJson,
      outputFilesList "out" (pipelineCollection toWGS0 [defAX] rawColl) [defAX] =
        outputFilesList "out" g [defAX] ∧
      (outputFilesList "out" (pipelineCollection toWGS0 [defAX] rawColl)
        [defAX]).getLast? = some (saveName "out", g) ∧
      (∀ f : Feature,
        (∃ d ∈ DESIGNATIONS [defAX], f ∈ partitionFeatures d g.features) ↔
          f ∈ g.features ∧ f.designation ≠ none) ∧
      (∀ d1 d2 : String, d1 ≠ d2 → ∀ f : Feature,
        f ∈ partitionFeatures d1 g.features → f ∉ partitionFeatures d2 g.features) :=
  C6_partition_completeness toWGS0 "out" [defAX] rawColl _ (by decide) rfl
